import Mathlib

/-!
Verification of the progressive income-tax engine of the taxes-calculator
repository (src/impots.py).  The core function `calculer_impot` takes a
taxable income and a number of fiscal parts, computes the family quotient,
runs it through the 2024 bracket table `TRANCHES_IMPOSITION`, and returns
the total tax, the per-part tax, the quotient and a per-bracket breakdown.
Currency arithmetic, floating point in the source, is modelled over ℚ
(decimal literals are exact rationals).
-/

namespace Impots

/-- A tax bracket, mirroring an entry of `TRANCHES_IMPOSITION` in
src/impots.py: lower bound `min`, upper bound `max` (`none` standing for
the source's `float('inf')`), marginal rate `taux`, display label. -/
structure Tranche where
  min : ℚ
  max : Option ℚ
  taux : ℚ
  label : String
  deriving DecidableEq, Repr

/-- The 2024 bracket table `TRANCHES_IMPOSITION` of src/impots.py. -/
def TRANCHES_IMPOSITION : List Tranche :=
  [⟨0, some 11294, 0.00, "0%"⟩,
   ⟨11294, some 28797, 0.11, "11%"⟩,
   ⟨28797, some 82341, 0.30, "30%"⟩,
   ⟨82341, some 177106, 0.41, "41%"⟩,
   ⟨177106, none, 0.45, "45%"⟩]

/-- One line item of the per-bracket breakdown (`detail_tranches` entry in
src/impots.py).  The source stores a formatted display string for the
bracket; we keep the bracket record itself in the `tranche` field, the rate
label in `taux`, and the numeric `base` and `impot` fields unchanged. -/
structure DetailTranche where
  tranche : Tranche
  taux : String
  base : ℚ
  impot : ℚ
  deriving DecidableEq, Repr

/-- The result record of `calculer_impot`. -/
structure ResultatImpot where
  impot_total : ℚ
  impot_par_part : ℚ
  quotient : ℚ
  detail_tranches : List DetailTranche
  deriving DecidableEq, Repr

/-- `min(quotient, tranche["max"])` of src/impots.py line 134, where the
last bracket's `max` is `float('inf')` so the minimum is the quotient. -/
def plafond (quotient : ℚ) (t : Tranche) : ℚ :=
  match t.max with
  | some m => min quotient m
  | none => quotient

/-- The `for tranche in TRANCHES_IMPOSITION` loop of src/impots.py lines
132-144, threading the `impot_par_part` accumulator and the growing
`detail_tranches` list through the bracket list. -/
def boucle (quotient : ℚ) (impot_par_part : ℚ) (detail : List DetailTranche) :
    List Tranche → ℚ × List DetailTranche
  | [] => (impot_par_part, detail)
  | t :: reste =>
    if quotient > t.min then
      let base_tranche := plafond quotient t - t.min
      let impot_tranche := base_tranche * t.taux
      boucle quotient (impot_par_part + impot_tranche)
        (detail ++ [⟨t, t.label, base_tranche, impot_tranche⟩]) reste
    else
      boucle quotient impot_par_part detail reste

/-- `calculer_impot` of src/impots.py lines 126-153: family quotient,
bracket loop, then total tax scaled back by the number of parts. -/
def calculer_impot (revenu_imposable : ℚ) (nb_parts : ℚ) : ResultatImpot :=
  let quotient := revenu_imposable / nb_parts
  let r := boucle quotient 0 [] TRANCHES_IMPOSITION
  { impot_total := r.1 * nb_parts
    impot_par_part := r.1
    quotient := quotient
    detail_tranches := r.2 }

/-- Taxable income of the surrounding application, src/impots.py lines
353-356: monthly incomes plus exceptional incomes, times 0.90 (the flat
10% deduction). -/
def revenu_avec_abattement (revenus_mensuels revenus_exceptionnels : List ℚ) : ℚ :=
  (revenus_mensuels.sum + revenus_exceptionnels.sum) * 0.90

/-- Balance of the surrounding application, src/impots.py lines 357-359:
total tax on the deducted income minus the sum of monthly withheld tax. -/
def solde_impot (revenus_mensuels revenus_exceptionnels impots_mensuels : List ℚ)
    (nb_parts : ℚ) : ℚ :=
  (calculer_impot (revenu_avec_abattement revenus_mensuels revenus_exceptionnels)
    nb_parts).impot_total - impots_mensuels.sum

/-! ### Characterisation of the bracket loop -/

/-- Tax contribution of one bracket to the per-part tax (lines 133-136 of
src/impots.py, read per bracket): zero when the quotient does not pass the
`quotient > tranche["min"]` test. -/
def terme (quotient : ℚ) (t : Tranche) : ℚ :=
  if quotient > t.min then (plafond quotient t - t.min) * t.taux else 0

/-- The line item appended for a bracket the quotient reaches (lines
138-144 of src/impots.py). -/
def ligne (quotient : ℚ) (t : Tranche) : DetailTranche :=
  ⟨t, t.label, plafond quotient t - t.min, (plafond quotient t - t.min) * t.taux⟩

theorem boucle_fst (quotient acc : ℚ) (d : List DetailTranche) (ts : List Tranche) :
    (boucle quotient acc d ts).1 = acc + (ts.map (terme quotient)).sum := by
  induction ts generalizing acc d with
  | nil => simp [boucle]
  | cons t reste ih =>
    by_cases h : quotient > t.min
    · simp only [boucle, ih, List.map_cons, List.sum_cons, terme, h, if_true]
      ring
    · simp only [boucle, ih, List.map_cons, List.sum_cons, terme, h, if_false]
      ring

theorem boucle_snd (quotient acc : ℚ) (d : List DetailTranche) (ts : List Tranche) :
    (boucle quotient acc d ts).2 =
      d ++ (ts.filter (fun t => decide (t.min < quotient))).map (ligne quotient) := by
  induction ts generalizing acc d with
  | nil => simp [boucle]
  | cons t reste ih =>
    by_cases h : quotient > t.min
    · simp [boucle, h, ih, List.filter_cons, ligne, List.append_assoc]
    · simp [boucle, h, ih, List.filter_cons]

theorem sum_impot_filtre (quotient : ℚ) (ts : List Tranche) :
    ((ts.filter (fun t => decide (t.min < quotient))).map
        (fun t => (ligne quotient t).impot)).sum = (ts.map (terme quotient)).sum := by
  induction ts with
  | nil => simp
  | cons t reste ih =>
    simp only [ligne] at ih ⊢
    by_cases h : t.min < quotient
    · simp [List.filter_cons, h, terme, ih]
    · simp [List.filter_cons, h, terme, ih]

/-! ### Closed form of the per-part tax -/

/-- Per-part tax as a function of the family quotient: the value
accumulated by the loop of src/impots.py lines 129-136. -/
def impot_quotient (q : ℚ) : ℚ :=
  (boucle q 0 [] TRANCHES_IMPOSITION).1

theorem calculer_impot_par_part (x n : ℚ) :
    (calculer_impot x n).impot_par_part = impot_quotient (x / n) := rfl

theorem calculer_impot_total (x n : ℚ) :
    (calculer_impot x n).impot_total = impot_quotient (x / n) * n := rfl

theorem calculer_impot_quotient (x n : ℚ) :
    (calculer_impot x n).quotient = x / n := rfl

theorem calculer_impot_detail (x n : ℚ) :
    (calculer_impot x n).detail_tranches = (boucle (x / n) 0 [] TRANCHES_IMPOSITION).2 := rfl

theorem impot_quotient_eq (q : ℚ) : impot_quotient q =
    if 177106 < q then 56842.18 + 0.45 * (q - 177106)
    else if 82341 < q then 17988.53 + 0.41 * (q - 82341)
    else if 28797 < q then 1925.33 + 0.30 * (q - 28797)
    else if 11294 < q then 0.11 * (q - 11294)
    else 0 := by
  rcases le_or_lt q 11294 with h1 | h1
  · rcases le_or_lt q 0 with h0 | h0
    · have n0 : ¬((0:ℚ) < q) := not_lt.mpr h0
      have n1 : ¬((11294:ℚ) < q) := by push_neg; linarith
      have n2 : ¬((28797:ℚ) < q) := by push_neg; linarith
      have n3 : ¬((82341:ℚ) < q) := by push_neg; linarith
      have n4 : ¬((177106:ℚ) < q) := by push_neg; linarith
      simp [impot_quotient, boucle, TRANCHES_IMPOSITION, n0, n1, n2, n3, n4]
    · have n1 : ¬((11294:ℚ) < q) := not_lt.mpr h1
      have n2 : ¬((28797:ℚ) < q) := by push_neg; linarith
      have n3 : ¬((82341:ℚ) < q) := by push_neg; linarith
      have n4 : ¬((177106:ℚ) < q) := by push_neg; linarith
      have e1 : min q 11294 = q := min_eq_left h1
      simp [impot_quotient, boucle, TRANCHES_IMPOSITION, plafond, h0, n1, n2, n3, n4, e1]
      norm_num
  · rcases le_or_lt q 28797 with h2 | h2
    · have n2 : ¬((28797:ℚ) < q) := not_lt.mpr h2
      have n3 : ¬((82341:ℚ) < q) := by push_neg; linarith
      have n4 : ¬((177106:ℚ) < q) := by push_neg; linarith
      have h0 : (0:ℚ) < q := by linarith
      have e1 : min q 11294 = 11294 := min_eq_right (by linarith)
      have e2 : min q 28797 = q := min_eq_left h2
      simp [impot_quotient, boucle, TRANCHES_IMPOSITION, plafond, h0, h1, n2, n3, n4, e1, e2]
      norm_num
      ring
    · rcases le_or_lt q 82341 with h3 | h3
      · have n3 : ¬((82341:ℚ) < q) := not_lt.mpr h3
        have n4 : ¬((177106:ℚ) < q) := by push_neg; linarith
        have h0 : (0:ℚ) < q := by linarith
        have e1 : min q 11294 = 11294 := min_eq_right (by linarith)
        have e2 : min q 28797 = 28797 := min_eq_right (by linarith)
        have e3 : min q 82341 = q := min_eq_left h3
        simp [impot_quotient, boucle, TRANCHES_IMPOSITION, plafond, h0, h1, h2, n3, n4,
          e1, e2, e3]
        norm_num
        ring
      · rcases le_or_lt q 177106 with h4 | h4
        · have n4 : ¬((177106:ℚ) < q) := not_lt.mpr h4
          have h0 : (0:ℚ) < q := by linarith
          have e1 : min q 11294 = 11294 := min_eq_right (by linarith)
          have e2 : min q 28797 = 28797 := min_eq_right (by linarith)
          have e3 : min q 82341 = 82341 := min_eq_right (by linarith)
          have e4 : min q 177106 = q := min_eq_left h4
          simp [impot_quotient, boucle, TRANCHES_IMPOSITION, plafond, h0, h1, h2, h3, n4,
            e1, e2, e3, e4]
          norm_num
          ring
        · have h0 : (0:ℚ) < q := by linarith
          have e1 : min q 11294 = 11294 := min_eq_right (by linarith)
          have e2 : min q 28797 = 28797 := min_eq_right (by linarith)
          have e3 : min q 82341 = 82341 := min_eq_right (by linarith)
          have e4 : min q 177106 = 177106 := min_eq_right (by linarith)
          simp [impot_quotient, boucle, TRANCHES_IMPOSITION, plafond, h0, h1, h2, h3, h4,
            e1, e2, e3, e4]
          norm_num
          ring

/-- Marginal rate of the bracket the quotient falls in (proof helper for
the monotonicity and convexity arguments). -/
def taux_marginal (q : ℚ) : ℚ :=
  if 177106 < q then 0.45
  else if 82341 < q then 0.41
  else if 28797 < q then 0.30
  else if 11294 < q then 0.11
  else 0

theorem taux_marginal_nonneg (q : ℚ) : 0 ≤ taux_marginal q := by
  unfold taux_marginal
  split_ifs <;> norm_num

theorem impot_quotient_nonneg (q : ℚ) : 0 ≤ impot_quotient q := by
  rw [impot_quotient_eq]
  split_ifs <;> linarith

/-- Average rate is at most the marginal rate: per-part tax is bounded by
the marginal rate times the quotient. -/
theorem impot_quotient_le_marginal (q : ℚ) (hq : 0 ≤ q) :
    impot_quotient q ≤ taux_marginal q * q := by
  rw [impot_quotient_eq]
  unfold taux_marginal
  split_ifs <;> linarith

/-- Moving the quotient up from `a` to `b` costs at least the marginal
rate at `a` on the whole increment. -/
theorem impot_quotient_accroissement (a b : ℚ) (ha : 0 ≤ a) (hab : a ≤ b) :
    impot_quotient a + taux_marginal a * (b - a) ≤ impot_quotient b := by
  rw [impot_quotient_eq, impot_quotient_eq]
  unfold taux_marginal
  split_ifs <;> linarith

theorem impot_quotient_mono (a b : ℚ) (hab : a ≤ b) :
    impot_quotient a ≤ impot_quotient b := by
  rw [impot_quotient_eq, impot_quotient_eq]
  split_ifs <;> linarith

/-- The per-bracket bases of the breakdown sum to the quotient. -/
theorem base_sum_boucle (q : ℚ) (hq : 0 ≤ q) :
    (((boucle q 0 [] TRANCHES_IMPOSITION).2).map DetailTranche.base).sum = q := by
  rcases le_or_lt q 11294 with h1 | h1
  · rcases eq_or_lt_of_le hq with h0 | h0
    · have n0 : ¬((0:ℚ) < q) := by rw [← h0]; exact lt_irrefl 0
      have n1 : ¬((11294:ℚ) < q) := by push_neg; linarith
      have n2 : ¬((28797:ℚ) < q) := by push_neg; linarith
      have n3 : ¬((82341:ℚ) < q) := by push_neg; linarith
      have n4 : ¬((177106:ℚ) < q) := by push_neg; linarith
      simp [boucle, TRANCHES_IMPOSITION, n0, n1, n2, n3, n4]
      linarith
    · have n1 : ¬((11294:ℚ) < q) := not_lt.mpr h1
      have n2 : ¬((28797:ℚ) < q) := by push_neg; linarith
      have n3 : ¬((82341:ℚ) < q) := by push_neg; linarith
      have n4 : ¬((177106:ℚ) < q) := by push_neg; linarith
      have e1 : min q 11294 = q := min_eq_left h1
      simp [boucle, TRANCHES_IMPOSITION, plafond, h0, n1, n2, n3, n4, e1]
  · rcases le_or_lt q 28797 with h2 | h2
    · have n2 : ¬((28797:ℚ) < q) := not_lt.mpr h2
      have n3 : ¬((82341:ℚ) < q) := by push_neg; linarith
      have n4 : ¬((177106:ℚ) < q) := by push_neg; linarith
      have h0 : (0:ℚ) < q := by linarith
      have e1 : min q 11294 = 11294 := min_eq_right (by linarith)
      have e2 : min q 28797 = q := min_eq_left h2
      simp [boucle, TRANCHES_IMPOSITION, plafond, h0, h1, n2, n3, n4, e1, e2]
    · rcases le_or_lt q 82341 with h3 | h3
      · have n3 : ¬((82341:ℚ) < q) := not_lt.mpr h3
        have n4 : ¬((177106:ℚ) < q) := by push_neg; linarith
        have h0 : (0:ℚ) < q := by linarith
        have e1 : min q 11294 = 11294 := min_eq_right (by linarith)
        have e2 : min q 28797 = 28797 := min_eq_right (by linarith)
        have e3 : min q 82341 = q := min_eq_left h3
        simp [boucle, TRANCHES_IMPOSITION, plafond, h0, h1, h2, n3, n4, e1, e2, e3]
      · rcases le_or_lt q 177106 with h4 | h4
        · have n4 : ¬((177106:ℚ) < q) := not_lt.mpr h4
          have h0 : (0:ℚ) < q := by linarith
          have e1 : min q 11294 = 11294 := min_eq_right (by linarith)
          have e2 : min q 28797 = 28797 := min_eq_right (by linarith)
          have e3 : min q 82341 = 82341 := min_eq_right (by linarith)
          have e4 : min q 177106 = q := min_eq_left h4
          simp [boucle, TRANCHES_IMPOSITION, plafond, h0, h1, h2, h3, n4, e1, e2, e3, e4]
        · have h0 : (0:ℚ) < q := by linarith
          have e1 : min q 11294 = 11294 := min_eq_right (by linarith)
          have e2 : min q 28797 = 28797 := min_eq_right (by linarith)
          have e3 : min q 82341 = 82341 := min_eq_right (by linarith)
          have e4 : min q 177106 = 177106 := min_eq_right (by linarith)
          simp [boucle, TRANCHES_IMPOSITION, plafond, h0, h1, h2, h3, h4, e1, e2, e3, e4]

/-! ### Claims -/

/-- C1: for taxableIncome 164682 and 2 parts the quotient is 82341, exactly
the bracket-3/bracket-4 boundary; the quotient is taxed entirely inside
bracket 3 (base 82341 − 28797 = 53544) and bracket 4 contributes no line
item and no tax, since the inclusion test 82341 > 82341 is false: the
breakdown has exactly the first three brackets. -/
theorem claim_C1 : calculer_impot 164682 2 =
    { impot_total := 35977.06
      impot_par_part := 17988.53
      quotient := 82341
      detail_tranches :=
        [⟨⟨0, some 11294, 0, "0%"⟩, "0%", 11294, 0⟩,
         ⟨⟨11294, some 28797, 0.11, "11%"⟩, "11%", 17503, 1925.33⟩,
         ⟨⟨28797, some 82341, 0.30, "30%"⟩, "30%", 82341 - 28797, (82341 - 28797) * 0.30⟩] } := by
  norm_num [calculer_impot, boucle, TRANCHES_IMPOSITION, plafond, min_def]

/-- C2: for every taxableIncome ≥ 0 and numberOfParts ≥ 1 the `base`
values of the line items sum to the quotient. -/
theorem claim_C2 (x n : ℚ) (hx : 0 ≤ x) (hn : 1 ≤ n) :
    ((calculer_impot x n).detail_tranches.map DetailTranche.base).sum =
      (calculer_impot x n).quotient := by
  rw [calculer_impot_detail, calculer_impot_quotient]
  exact base_sum_boucle _ (div_nonneg hx (by linarith))

theorem claim_C2_witness :
    ((calculer_impot 30000 1).detail_tranches.map DetailTranche.base).sum =
      (calculer_impot 30000 1).quotient :=
  claim_C2 30000 1 (by norm_num) (by norm_num)

/-- C3: for fixed numberOfParts ≥ 1 the total tax is non-decreasing in
taxableIncome. -/
theorem claim_C3 (n x1 x2 : ℚ) (hn : 1 ≤ n) (hx1 : 0 ≤ x1) (hx : x1 ≤ x2) :
    (calculer_impot x1 n).impot_total ≤ (calculer_impot x2 n).impot_total := by
  rw [calculer_impot_total, calculer_impot_total]
  have hn0 : 0 < n := by linarith
  have hq : x1 / n ≤ x2 / n := by
    rw [div_le_div_iff hn0 hn0]
    exact mul_le_mul_of_nonneg_right hx hn0.le
  exact mul_le_mul_of_nonneg_right (impot_quotient_mono _ _ hq) hn0.le

theorem claim_C3_witness :
    (calculer_impot 30000 1).impot_total ≤ (calculer_impot 50000 1).impot_total :=
  claim_C3 1 30000 50000 (by norm_num) (by norm_num) (by norm_num)

/-- C4: for fixed taxableIncome ≥ 0 the total tax is non-increasing in
numberOfParts — the income-splitting benefit of the quotient method. -/
theorem claim_C4 (x n1 n2 : ℚ) (hx : 0 ≤ x) (hn1 : 1 ≤ n1) (hn : n1 ≤ n2) :
    (calculer_impot x n2).impot_total ≤ (calculer_impot x n1).impot_total := by
  rw [calculer_impot_total, calculer_impot_total]
  have hp1 : 0 < n1 := by linarith
  have hp2 : 0 < n2 := by linarith
  set a := x / n2 with hadef
  set b := x / n1 with hbdef
  have ha : 0 ≤ a := div_nonneg hx hp2.le
  have hab : a ≤ b := by
    rw [hadef, hbdef, div_le_div_iff hp2 hp1]
    exact mul_le_mul_of_nonneg_left hn hx
  have e1 : n1 * b = x := by rw [hbdef]; field_simp
  have e2 : n2 * a = x := by rw [hadef]; field_simp
  have key1 := impot_quotient_accroissement a b ha hab
  have key2 := impot_quotient_le_marginal a ha
  have h3 : n1 * (impot_quotient a + taux_marginal a * (b - a)) ≤ n1 * impot_quotient b :=
    mul_le_mul_of_nonneg_left key1 hp1.le
  have h5 : n1 * (b - a) = (n2 - n1) * a := by
    rw [mul_sub, sub_mul]
    linarith [e1, e2]
  have h6 : n1 * (impot_quotient a + taux_marginal a * (b - a)) =
      n1 * impot_quotient a + taux_marginal a * ((n2 - n1) * a) := by
    rw [mul_add, mul_left_comm, h5]
  rw [h6] at h3
  have h4 : (n2 - n1) * impot_quotient a ≤ (n2 - n1) * (taux_marginal a * a) :=
    mul_le_mul_of_nonneg_left key2 (by linarith)
  have h4' : (n2 - n1) * (taux_marginal a * a) = taux_marginal a * ((n2 - n1) * a) := by
    ring
  rw [h4'] at h4
  linarith

theorem claim_C4_witness :
    (calculer_impot 30000 2).impot_total ≤ (calculer_impot 30000 1).impot_total :=
  claim_C4 30000 1 2 (by norm_num) (by norm_num) (by norm_num)

/-- C5: for every numberOfParts ≥ 1, computeTax of a zero income gives
zero total tax, zero per-part tax, zero quotient and no line items. -/
theorem claim_C5 (n : ℚ) (hn : 1 ≤ n) :
    calculer_impot 0 n =
      { impot_total := 0, impot_par_part := 0, quotient := 0, detail_tranches := [] } := by
  norm_num [calculer_impot, boucle, TRANCHES_IMPOSITION, zero_div]

theorem claim_C5_witness :
    calculer_impot 0 2 =
      { impot_total := 0, impot_par_part := 0, quotient := 0, detail_tranches := [] } :=
  claim_C5 2 (by norm_num)

/-- C6: the line items are exactly the brackets whose lower bound is
strictly below the quotient, in the (ascending) order of the table. -/
theorem claim_C6 (x n : ℚ) (hx : 0 ≤ x) (hn : 1 ≤ n) :
    (calculer_impot x n).detail_tranches.map DetailTranche.tranche =
      TRANCHES_IMPOSITION.filter
        (fun t => decide (t.min < (calculer_impot x n).quotient)) := by
  rw [calculer_impot_detail, calculer_impot_quotient, boucle_snd]
  have hcomp : DetailTranche.tranche ∘ ligne (x / n) = fun t => t := by
    funext t; rfl
  simp [List.map_map, hcomp]

theorem claim_C6_witness :
    (calculer_impot 30000 1).detail_tranches.map DetailTranche.tranche =
      TRANCHES_IMPOSITION.filter
        (fun t => decide (t.min < (calculer_impot 30000 1).quotient)) :=
  claim_C6 30000 1 (by norm_num) (by norm_num)

/-- C7: computeTax(30000, 1) on the 2024 table gives quotient 30000, a
bracket-2 line item with base 17503 and tax 1925.33, a bracket-3 line item
with base 1203 and tax 360.90, and per-part and total tax 2286.23. -/
theorem claim_C7 : calculer_impot 30000 1 =
    { impot_total := 2286.23
      impot_par_part := 2286.23
      quotient := 30000
      detail_tranches :=
        [⟨⟨0, some 11294, 0, "0%"⟩, "0%", 11294, 0⟩,
         ⟨⟨11294, some 28797, 0.11, "11%"⟩, "11%", 17503, 1925.33⟩,
         ⟨⟨28797, some 82341, 0.30, "30%"⟩, "30%", 1203, 360.90⟩] } := by
  norm_num [calculer_impot, boucle, TRANCHES_IMPOSITION, plafond, min_def]

/-- C8: the application computes taxable income as (monthly sum +
exceptional sum) × 0.90 and the balance as totalTax − withheld sum; with
monthly incomes summing to 24000, no exceptional income, one part and 1000
withheld: taxable 21600, total tax (21600 − 11294) × 0.11 = 1133.66, and a
positive balance 133.66 (amount owed). -/
theorem claim_C8 (rm re im : List ℚ) (n : ℚ)
    (hrm : rm.sum = 24000) (hre : re = []) (him : im.sum = 1000) (hn : n = 1) :
    revenu_avec_abattement rm re = 21600 ∧
    (calculer_impot (revenu_avec_abattement rm re) n).impot_total = (21600 - 11294) * 0.11 ∧
    solde_impot rm re im n = 133.66 ∧
    0 < solde_impot rm re im n := by
  subst hre hn
  have h1 : revenu_avec_abattement rm [] = 21600 := by
    simp [revenu_avec_abattement, hrm]
    norm_num
  have h2 : (calculer_impot (21600 : ℚ) 1).impot_total = 1133.66 := by
    norm_num [calculer_impot, boucle, TRANCHES_IMPOSITION, plafond, min_def]
  have h3 : solde_impot rm [] im 1 = 133.66 := by
    rw [solde_impot, h1, h2, him]
    norm_num
  refine ⟨h1, ?_, h3, ?_⟩
  · rw [h1, h2]; norm_num
  · rw [h3]; norm_num

theorem claim_C8_witness :
    revenu_avec_abattement [2000, 2000, 2000, 2000, 2000, 2000, 2000, 2000, 2000, 2000, 2000, 2000] [] = 21600 ∧
    (calculer_impot (revenu_avec_abattement [2000, 2000, 2000, 2000, 2000, 2000, 2000, 2000, 2000, 2000, 2000, 2000] []) 1).impot_total = (21600 - 11294) * 0.11 ∧
    solde_impot [2000, 2000, 2000, 2000, 2000, 2000, 2000, 2000, 2000, 2000, 2000, 2000] []
      [1000, 0, 0, 0, 0, 0, 0, 0, 0, 0, 0, 0] 1 = 133.66 ∧
    0 < solde_impot [2000, 2000, 2000, 2000, 2000, 2000, 2000, 2000, 2000, 2000, 2000, 2000] []
      [1000, 0, 0, 0, 0, 0, 0, 0, 0, 0, 0, 0] 1 :=
  claim_C8 _ _ _ _ (by norm_num) rfl (by norm_num) rfl

/-- C9: the result is internally consistent: the per-part tax equals the
sum of the line items' `impot` fields, and the total tax is that sum times
the number of parts. -/
theorem claim_C9 (x n : ℚ) (hx : 0 ≤ x) (hn : 1 ≤ n) :
    (calculer_impot x n).impot_par_part =
      ((calculer_impot x n).detail_tranches.map DetailTranche.impot).sum ∧
    (calculer_impot x n).impot_total =
      ((calculer_impot x n).detail_tranches.map DetailTranche.impot).sum * n := by
  have h1 : (calculer_impot x n).impot_par_part =
      ((calculer_impot x n).detail_tranches.map DetailTranche.impot).sum := by
    rw [calculer_impot_par_part, calculer_impot_detail, boucle_snd]
    have hf := boucle_fst (x / n) 0 [] TRANCHES_IMPOSITION
    have hs := sum_impot_filtre (x / n) TRANCHES_IMPOSITION
    rw [impot_quotient, hf, zero_add, ← hs]
    simp only [List.nil_append, List.map_map]
    rfl
  refine ⟨h1, ?_⟩
  rw [calculer_impot_total, ← calculer_impot_par_part, h1]

theorem claim_C9_witness :
    (calculer_impot 30000 1).impot_par_part =
      ((calculer_impot 30000 1).detail_tranches.map DetailTranche.impot).sum ∧
    (calculer_impot 30000 1).impot_total =
      ((calculer_impot 30000 1).detail_tranches.map DetailTranche.impot).sum * 1 :=
  claim_C9 30000 1 (by norm_num) (by norm_num)

/-- C10: a negative taxableIncome raises no error: the result is total tax
0, per-part tax 0, an empty breakdown and the negative quotient
taxableIncome / numberOfParts, as no bracket passes the inclusion test. -/
theorem claim_C10 (x n : ℚ) (hx : x < 0) (hn : 1 ≤ n) :
    calculer_impot x n =
      { impot_total := 0, impot_par_part := 0, quotient := x / n, detail_tranches := [] } ∧
    (calculer_impot x n).quotient < 0 := by
  have hp : 0 < n := by linarith
  have hq : x / n < 0 := div_neg_of_neg_of_pos hx hp
  have n0 : ¬((0:ℚ) < x / n) := by push_neg; linarith
  have n1 : ¬((11294:ℚ) < x / n) := by push_neg; linarith
  have n2 : ¬((28797:ℚ) < x / n) := by push_neg; linarith
  have n3 : ¬((82341:ℚ) < x / n) := by push_neg; linarith
  have n4 : ¬((177106:ℚ) < x / n) := by push_neg; linarith
  constructor
  · simp [calculer_impot, boucle, TRANCHES_IMPOSITION, n0, n1, n2, n3, n4]
  · rw [calculer_impot_quotient]
    exact hq

theorem claim_C10_witness :
    calculer_impot (-100) 2 =
      { impot_total := 0, impot_par_part := 0, quotient := (-100) / 2, detail_tranches := [] } ∧
    (calculer_impot (-100) 2).quotient < 0 :=
  claim_C10 (-100) 2 (by norm_num) (by norm_num)

end Impots
